import Mathlib

/-!
Shallow embedding of the terrain-rendering core of the `local-api` repository:
the GPU threshold/statistics kernels (`a32nx*` functions), and the map handler
(`MapHandler.calculateAbsoluteCutOffAltitude`, `extractElevation`,
`analyzeMetadata`, `configureNavigationDisplay`, `createLocalElevationMap`).
Numeric JavaScript values are idealised as exact rationals; the glide-slope
computation, which calls `Math.atan`, is idealised over the reals.
-/

/-! ## Constants (mirrors the constant block of `maphandler.ts`) -/

def FeetPerNauticalMile : ℚ := 6076.12

def ThreeNauticalMilesInFeet : ℚ := 18228.3

def NauticalMilesToMetres : ℚ := 1852

def InvalidElevation : ℚ := 32767

def UnknownElevation : ℚ := 32766

def WaterElevation : ℚ := -1

def HistogramBinRange : ℚ := 100

def HistogramMinimumElevation : ℚ := -500

def HistogramMaximumElevation : ℚ := 29040

/-- Value of `Math.ceil((29040 - (-500) + 1) / 100)`, i.e. 296. -/
def HistogramBinCount : ℕ := 296

def RenderingCutOffAltitudeMinimimum : ℚ := 200

def RenderingCutOffAltitudeMaximum : ℚ := 400

def RenderingLowerPercentile : ℚ := 0.85

def RenderingUpperPercentile : ℚ := 0.95

def RenderingFlatEarthThreshold : ℚ := 100

def RenderingMaxAirportDistance : ℚ := 4.0

def RenderingNormalModeLowDensityGreenOffset : ℚ := 2000

def RenderingNormalModeHighDensityGreenOffset : ℚ := 1000

def RenderingNormalModeHighDensityYellowOffset : ℚ := 1000

def RenderingNormalModeHighDensityRedOffset : ℚ := 2000

def RenderingGearDownOffset : ℚ := 250

def RenderingNonGearDownOffset : ℚ := 500

/-- JavaScript `Math.round`: round half toward positive infinity. -/
def mathRound (q : ℚ) : ℚ := ((⌊q + 1 / 2⌋ : ℤ) : ℚ)

/-! ## GPU threshold kernels (`a32nx*` functions of the rendering source) -/

/-- Embeds `a32nxCalculateNormalModeGreenThresholds`: the pair
`(lowDensityGreen, highDensityGreen)`, including the flat-earth clamp of
`lowDensityGreen`. -/
def a32nxCalculateNormalModeGreenThresholds
    (referenceAltitude minimumElevation flatEarth lowerPercentile halfElevation : ℚ) :
    ℚ × ℚ :=
  let lowDensityGreen :=
    if referenceAltitude - RenderingNormalModeLowDensityGreenOffset ≤ minimumElevation then
      minimumElevation + 200
    else
      referenceAltitude - RenderingNormalModeLowDensityGreenOffset
  let highDensityGreen :=
    if referenceAltitude - RenderingNormalModeHighDensityGreenOffset ≤ minimumElevation then
      minimumElevation + 200
    else
      referenceAltitude - RenderingNormalModeHighDensityGreenOffset
  let lowDensityGreen :=
    if 0 ≤ flatEarth then
      if halfElevation ≤ lowerPercentile ∧ halfElevation < lowDensityGreen then
        halfElevation
      else if lowerPercentile < halfElevation ∧ lowerPercentile < lowDensityGreen then
        lowerPercentile
      else
        lowDensityGreen
    else
      lowDensityGreen
  (lowDensityGreen, highDensityGreen)

/-- Embeds `a32nxCalculateNormalModeWarningThresholds`: the triple
`(lowDensityYellow, highDensityYellow, highDensityRed)`. -/
def a32nxCalculateNormalModeWarningThresholds
    (referenceAltitude minimumElevation gearDownAltitudeOffset : ℚ) : ℚ × ℚ × ℚ :=
  let lowDensityYellow := referenceAltitude - gearDownAltitudeOffset
  let highDensityYellow := referenceAltitude + RenderingNormalModeHighDensityYellowOffset
  let highDensityRed := referenceAltitude + RenderingNormalModeHighDensityRedOffset
  let lowDensityYellow :=
    if lowDensityYellow ≤ minimumElevation then minimumElevation + 200 else lowDensityYellow
  (lowDensityYellow, highDensityYellow, highDensityRed)

/-- Embeds `a32nxCalculatePeaksModeThresholds`: the triple
`(lowerDensity, higherDensity, solidDensity)` with the sanity clamp. -/
def a32nxCalculatePeaksModeThresholds
    (lowerPercentile upperPercentile halfElevation minimumElevation maximumElevation : ℚ) :
    ℚ × ℚ × ℚ :=
  let lowerDensity := min lowerPercentile halfElevation
  let higherDensity :=
    min upperPercentile ((maximumElevation - minimumElevation) * 0.65 + minimumElevation)
  let solidDensity := (maximumElevation - minimumElevation) * 0.95 + minimumElevation
  if higherDensity ≤ lowerDensity ∨ solidDensity ≤ lowerDensity ∨ solidDensity ≤ higherDensity
      ∨ upperPercentile ≤ lowerPercentile ∨ solidDensity ≤ lowerPercentile
      ∨ solidDensity ≤ upperPercentile then
    (lowerDensity, maximumElevation + 100, maximumElevation + 100)
  else
    (lowerDensity, higherDensity, solidDensity)

/-! ## Histogram statistics of `a32nxRenderNavigationDisplay` -/

/-- The derived statistics computed by `a32nxRenderNavigationDisplay` from the
histogram before mode selection. -/
structure A32nxHistogramStatistics where
  lowerPercentileElevation : ℚ
  upperPercentileElevation : ℚ
  minElevation : ℚ
  maxElevation : ℚ
  flatEarth : ℚ
  halfElevation : ℚ
  deriving DecidableEq

/-- The histogram scan of `a32nxRenderNavigationDisplay` (`for` loop over the
bins in `[cutOffAltitudeBin, histogramBinCount)` and the bin post-processing).
Callers always pass `cutOffAltitude ≥ -500` (the range of
`calculateAbsoluteCutOffAltitude`), so the cut-off bin is nonnegative. -/
def a32nxHistogramStatistics (histogram : ℕ → ℚ) (cutOffAltitude : ℚ) :
    A32nxHistogramStatistics :=
  let cutOffAltitudeBin : ℕ :=
    (⌊(cutOffAltitude - HistogramMinimumElevation) / HistogramBinRange⌋).toNat
  let bins := List.range' cutOffAltitudeBin (HistogramBinCount - cutOffAltitudeBin)
  let totalFrequency := (bins.map histogram).sum
  let scan :=
    bins.foldl
      (fun (s : ℚ × ℤ × ℤ × ℤ × ℤ) bin =>
        let currentPercentile :=
          if 0 < totalFrequency then s.1 + histogram bin / totalFrequency else s.1
        let lowerBin :=
          if 0 < totalFrequency ∧ s.2.1 = -1 ∧ RenderingLowerPercentile ≤ currentPercentile
          then (bin : ℤ) else s.2.1
        let upperBin :=
          if 0 < totalFrequency ∧ s.2.2.1 = -1 ∧ RenderingUpperPercentile ≤ currentPercentile
          then (bin : ℤ) else s.2.2.1
        let minElevationBin :=
          if 0 < histogram bin ∧ s.2.2.2.1 < 0 then (bin : ℤ) else s.2.2.2.1
        let maxElevationBin := if 0 < histogram bin then (bin : ℤ) else s.2.2.2.2
        (currentPercentile, lowerBin, upperBin, minElevationBin, maxElevationBin))
      (0, -1, -1, -1, -1)
  let lowerBin :=
    if (HistogramBinCount : ℤ) < scan.2.1 then (HistogramBinCount : ℤ) - 1 else scan.2.1
  let upperBin := if scan.2.2.1 < 0 then (HistogramBinCount : ℤ) - 1 else scan.2.2.1
  let minElevationBin := scan.2.2.2.1
  let maxElevationBin := scan.2.2.2.2
  let minElevation :=
    if 0 ≤ minElevationBin then
      (minElevationBin : ℚ) * HistogramBinRange + HistogramMinimumElevation
    else
      -1
  let maxElevation :=
    if 0 ≤ maxElevationBin then
      ((maxElevationBin : ℚ) + 1) * HistogramBinRange + HistogramMinimumElevation
    else
      0
  { lowerPercentileElevation := (lowerBin : ℚ) * HistogramBinRange + HistogramMinimumElevation
    upperPercentileElevation := (upperBin : ℚ) * HistogramBinRange + HistogramMinimumElevation
    minElevation := minElevation
    maxElevation := maxElevation
    flatEarth := RenderingFlatEarthThreshold - (maxElevation - minElevation)
    halfElevation := maxElevation * 0.5 }

/-- Embeds the `referenceAltitude` computation of `a32nxRenderNavigationDisplay`
(30-second look-ahead during strong descent). -/
def referenceAltitude (altitude verticalSpeed : ℚ) : ℚ :=
  altitude + (if verticalSpeed ≤ -1000 then verticalSpeed * 0.5 else 0)

/-- The two rendering modes dispatched by `a32nxRenderNavigationDisplay`. -/
inductive A32nxRenderMode
  | normal
  | peaks
  deriving DecidableEq

/-- The mode branch of `a32nxRenderNavigationDisplay`: normal mode when
`maxElevation >= referenceAltitude - gearDownAltitudeOffset`. -/
def a32nxRenderModeOfMaxElevation (maxElevation refAlt gearDownAltitudeOffset : ℚ) :
    A32nxRenderMode :=
  if refAlt - gearDownAltitudeOffset ≤ maxElevation then
    A32nxRenderMode.normal
  else
    A32nxRenderMode.peaks

/-- The mode dispatch of `a32nxRenderNavigationDisplay` on the histogram-derived
statistics. -/
def a32nxRenderNavigationDisplayMode
    (histogram : ℕ → ℚ) (cutOffAltitude altitude verticalSpeed gearDownAltitudeOffset : ℚ) :
    A32nxRenderMode :=
  a32nxRenderModeOfMaxElevation
    (a32nxHistogramStatistics histogram cutOffAltitude).maxElevation
    (referenceAltitude altitude verticalSpeed)
    gearDownAltitudeOffset

/-! ## MapHandler: metadata analysis (`analyzeMetadata`) -/

/-- Enumeration `TerrainLevelMode` of `navigationdisplaydata.ts` (values as used by the
map handler). -/
inductive TerrainLevelMode
  | PeaksMode
  | Warning
  | Caution
  deriving DecidableEq

/-- The four threshold fields that `MapHandler.analyzeMetadata` assigns on the
`NavigationDisplayData` it returns (the frame-specific fields `FirstFrame`,
`DisplayRange`, `DisplayMode` and `FrameByteCount` are filled in later by the
transition code and are modelled in `TerrainMapMetadataMessage`). -/
structure NavigationDisplayThresholdData where
  MinimumElevation : ℚ
  MinimumElevationMode : TerrainLevelMode
  MaximumElevation : ℚ
  MaximumElevationMode : TerrainLevelMode
  deriving DecidableEq

/-- Embeds `MapHandler.analyzeMetadata`: interprets the metadata row of the rendered
frame (first eight scalar entries) together with the cut-off altitude. -/
def analyzeMetadata (metadata : Fin 8 → ℚ) (cutOffAltitude : ℚ) :
    NavigationDisplayThresholdData :=
  if metadata 0 = 0 then
    let maxElevation := metadata 2
    let highDensityRed := metadata 3
    let lowDensityYellow := metadata 5
    let highDensityGreen := metadata 6
    let lowDensityGreen := metadata 7
    { MinimumElevation := if lowDensityGreen < cutOffAltitude then cutOffAltitude else lowDensityGreen
      MinimumElevationMode :=
        if lowDensityYellow ≤ highDensityGreen then TerrainLevelMode.Warning
        else TerrainLevelMode.PeaksMode
      MaximumElevation := maxElevation
      MaximumElevationMode :=
        if highDensityRed ≤ maxElevation then TerrainLevelMode.Caution
        else TerrainLevelMode.Warning }
  else
    let minElevation := metadata 1
    let maxElevation := metadata 2
    let lowDensityGreen := metadata 5
    if maxElevation < 0 then
      { MinimumElevation := -1
        MinimumElevationMode := TerrainLevelMode.PeaksMode
        MaximumElevation := 0
        MaximumElevationMode := TerrainLevelMode.PeaksMode }
    else
      { MinimumElevation := if minElevation < lowDensityGreen then lowDensityGreen else minElevation
        MinimumElevationMode := TerrainLevelMode.PeaksMode
        MaximumElevation := maxElevation
        MaximumElevationMode := TerrainLevelMode.PeaksMode }

/-! ## MapHandler: elevation extraction (`extractElevation`) -/

/-- Embeds `MapHandler.extractElevation`. The cached CPU grid is a flat list (`null`
and the empty array both behave as the empty list); the remaining arguments
mirror `worldmap.GridData`, `worldMapMetadata` and the aircraft status. The
final JavaScript array access is unguarded for negative indices, where it
yields `undefined`: that case is modelled as `none`. -/
def extractElevationIndex
    (latitudeStep longitudeStep minHeightPerTile minWidthPerTile : ℚ)
    (currentGridPositionX currentGridPositionY width : ℚ)
    (aircraftLatitude aircraftLongitude latitude longitude : ℚ) : ℤ :=
  let latStep := latitudeStep / minHeightPerTile
  let longStep := longitudeStep / minWidthPerTile
  let latPixelDelta := (aircraftLatitude - latitude) / latStep
  let longPixelDelta := (longitude - aircraftLongitude) / longStep
  ⌊(currentGridPositionY + latPixelDelta) * width + currentGridPositionX + longPixelDelta⌋

def extractElevation
    (cpuData : List ℚ) (latitudeStep longitudeStep minHeightPerTile minWidthPerTile : ℚ)
    (currentGridPositionX currentGridPositionY width : ℚ)
    (aircraftLatitude aircraftLongitude latitude longitude : ℚ) : Option ℚ :=
  if cpuData.length = 0 then some InvalidElevation
  else
    let index :=
      extractElevationIndex latitudeStep longitudeStep minHeightPerTile minWidthPerTile
        currentGridPositionX currentGridPositionY width
        aircraftLatitude aircraftLongitude latitude longitude
    if (cpuData.length : ℤ) ≤ index then some UnknownElevation
    else if 0 ≤ index then some (cpuData.getD index.toNat 0)
    else none

/-! ## MapHandler: per-side configuration (`configureNavigationDisplay`) -/

/-- Per-side `NavigationDisplay` configuration record (communication type). -/
structure NavigationDisplay where
  range : ℚ
  arcMode : Bool
  active : Bool
  efisMode : ℚ
  mapOffsetX : ℚ
  mapWidth : ℚ
  mapHeight : ℚ
  deriving DecidableEq

/-- The full metadata message sent by
`simconnect.sendNavigationDisplayTerrainMapMetadata` (fields as assigned in
`maphandler.ts`). -/
structure TerrainMapMetadataMessage where
  MinimumElevation : ℚ
  MinimumElevationMode : TerrainLevelMode
  MaximumElevation : ℚ
  MaximumElevationMode : TerrainLevelMode
  FirstFrame : Bool
  DisplayRange : ℚ
  DisplayMode : ℚ
  FrameByteCount : ℚ
  deriving DecidableEq

/-- The per-side rendering state of `MapHandler.navigationDisplayRendering`.
Timer handles are opaque identifiers; the GPU kernel handle is not modelled. -/
structure SideState where
  config : Option NavigationDisplay
  timeout : Option ℕ
  durationInterval : Option ℕ
  resetRenderingData : Bool
  startupTimestamp : ℚ
  lastFrame : Option (List ℚ)
  lastTransitionTimestamp : ℚ
  lastTransitionThresholds : Option NavigationDisplayThresholdData
  lastTransitionFrames : List (List ℚ)
  deriving DecidableEq

/-- Embeds `MapHandler.resetFrameData`. -/
def resetFrameData (s : SideState) : SideState :=
  { s with
    lastTransitionThresholds := none
    lastTransitionTimestamp := 0
    lastTransitionFrames := []
    lastFrame := none }

/-- The reset metadata message emitted by `configureNavigationDisplay`. -/
def resetMetadataMessage : TerrainMapMetadataMessage :=
  { MinimumElevation := -1
    MinimumElevationMode := TerrainLevelMode.PeaksMode
    MaximumElevation := -1
    MaximumElevationMode := TerrainLevelMode.PeaksMode
    FirstFrame := true
    DisplayRange := 0
    DisplayMode := 0
    FrameByteCount := 0 }

/-- Embeds `MapHandler.configureNavigationDisplay` for one side: the new side state,
the metadata messages sent synchronously, and whether
`startNavigationDisplayRenderingCycle` is invoked. -/
def configureNavigationDisplay (s : SideState) (config : NavigationDisplay) (startup : Bool) :
    SideState × List TerrainMapMetadataMessage × Bool :=
  let lastConfig := s.config
  let stopRendering :=
    !config.active && (match lastConfig with | some lc => lc.active | none => false)
  let startRendering :=
    (config.active && (match lastConfig with | some lc => !lc.active | none => true))
    || (match lastConfig with
        | some lc => decide (lc.range ≠ config.range) || decide (lc.arcMode ≠ config.arcMode)
        | none => false)
    || (match lastConfig with
        | some lc => decide (lc.efisMode ≠ config.efisMode)
        | none => false)
  let s := { s with config := some config }
  if startup then (s, [], false)
  else if stopRendering || startRendering then
    (resetFrameData
      { s with durationInterval := none, timeout := none, resetRenderingData := true },
      [resetMetadataMessage],
      startRendering)
  else (s, [], false)

/-! ## MapHandler: cut-off altitude (`calculateAbsoluteCutOffAltitude`)

The JavaScript computes `glideRadian = Math.atan(opposite / distanceFeet)`
only when `opposite > 0 && distance > 0` and leaves it `0.0` otherwise; the
angle is idealised over the reals. -/

/-- The `glideRadian` local of `calculateAbsoluteCutOffAltitude`. -/
noncomputable def glideRadian (destinationElevation altitude distance : ℚ) : ℝ :=
  if 0 < altitude - destinationElevation ∧ 0 < distance then
    Real.arctan
      (((altitude - destinationElevation : ℚ) : ℝ) / ((distance * FeetPerNauticalMile : ℚ) : ℝ))
  else 0

/-- Embeds `MapHandler.calculateAbsoluteCutOffAltitude`, with the destination
elevation (result of `extractElevation`), the aircraft altitude and the
WGS-84 distance to the destination as inputs. -/
noncomputable def calculateAbsoluteCutOffAltitude
    (destinationDataValid : Bool) (destinationElevation altitude distance : ℚ) : ℚ :=
  if destinationDataValid = false then HistogramMinimumElevation
  else if destinationElevation ≠ InvalidElevation then
    if distance ≤ RenderingMaxAirportDistance then
      if glideRadian destinationElevation altitude distance < 0.0523599 then
        if distance ≤ 1 ∨ glideRadian destinationElevation altitude distance = 0 then
          RenderingCutOffAltitudeMinimimum
        else
          min
            (max
              (mathRound
                ((RenderingCutOffAltitudeMinimimum - RenderingCutOffAltitudeMaximum)
                    / ThreeNauticalMilesInFeet
                    * (distance * FeetPerNauticalMile - FeetPerNauticalMile)
                  + RenderingCutOffAltitudeMaximum))
              RenderingCutOffAltitudeMinimimum)
            RenderingCutOffAltitudeMaximum
      else RenderingCutOffAltitudeMaximum
    else RenderingCutOffAltitudeMaximum
  else HistogramMinimumElevation

/-- C2's reading of the cut-off rule, written from the words of the claim: the
glide angle is always `atan((altitude - destinationElevation) / (d * 6076.12))`
and the interpolation runs linearly from 400 at 1 nm to 200 at 4 nm. Kept only
to compare against `calculateAbsoluteCutOffAltitude`. -/
noncomputable def cutOffAltitudeClaimC2
    (destinationDataValid : Bool) (destinationElevation altitude distance : ℚ) : ℚ :=
  if destinationDataValid = false ∨ destinationElevation = InvalidElevation then -500
  else if RenderingMaxAirportDistance < distance then 400
  else if (0.0523599 : ℝ) <
      Real.arctan
        (((altitude - destinationElevation : ℚ) : ℝ) / ((distance * 6076.12 : ℚ) : ℝ)) then
    400
  else if distance ≤ 1 ∨
      Real.arctan
        (((altitude - destinationElevation : ℚ) : ℝ) / ((distance * 6076.12 : ℚ) : ℝ)) = 0 then
    200
  else
    min (max (mathRound (400 + (200 - 400) * (distance - 1) / 3)) 200) 400

/-! ## MapHandler: local elevation map (`createLocalElevationMap`) -/

/-- Embeds `metresPerPixel` as computed by `MapHandler.createLocalElevationMap`
before invoking the GPU kernel. -/
def metresPerPixel (range mapHeight : ℚ) (arcMode : Bool) : ℚ :=
  let m := mathRound (range * NauticalMilesToMetres / mapHeight)
  if arcMode then m * 2 else m

/-- Modelled from the spec: `deg2rad` of the geodesic kit (`generic/helper`
is not part of the repository snapshot). -/
noncomputable def deg2rad (degrees : ℝ) : ℝ := degrees * (Real.pi / 180)

/-- Modelled from the spec: `rad2deg` of the geodesic kit (`generic/helper`
is not part of the repository snapshot). -/
noncomputable def rad2deg (radians : ℝ) : ℝ := radians * (180 / Real.pi)

/-- Modelled from the spec: `normalizeHeading` maps a heading into `[0, 360)`
(`gpu/helper` is not part of the repository snapshot). -/
noncomputable def normalizeHeading (heading : ℝ) : ℝ := heading - 360 * ⌊heading / 360⌋

/-- Modelled from the spec: `projectWgs84`, the spherical forward-azimuth
projection on the WGS-84 mean radius (`gpu/helper` is not part of the
repository snapshot; none of the formalised claims depends on its values). -/
noncomputable def projectWgs84 (latitude longitude bearing distance : ℝ) : ℝ × ℝ :=
  let phi := deg2rad latitude
  let lambda := deg2rad longitude
  let theta := deg2rad bearing
  let delta := distance / 6371000
  let phi2 := Real.arcsin (Real.sin phi * Real.cos delta + Real.cos phi * Real.sin delta * Real.cos theta)
  let lambda2 := lambda +
    Real.arctan
      ((Real.sin theta * Real.sin delta * Real.cos phi)
        / (Real.cos delta - Real.sin phi * Real.sin phi2))
  (rad2deg phi2, rad2deg lambda2)

/-- The GPU kernel `createLocalElevationMap` (`gpu/elevationmap.ts`) for one
output pixel `(x, y)`; the world map texture is a sampling function. -/
noncomputable def createLocalElevationMap
    (latitude longitude heading currentWorldGridX currentWorldGridY : ℝ)
    (worldMap : ℤ → ℤ → ℝ)
    (worldMapWidth worldMapHeight : ℝ)
    (worldMapSouthwestLat worldMapSouthwestLong worldMapNortheastLat worldMapNortheastLong : ℝ)
    (ndWidth ndHeight meterPerPixel : ℝ) (arcMode : Bool) (x y : ℝ) : ℝ :=
  let centerX := ndWidth / 2
  let deltaX := x - centerX
  let deltaY := ndHeight - y
  let distancePixels := Real.sqrt (deltaX ^ 2 + deltaY ^ 2)
  if arcMode = true ∧ ndHeight < distancePixels then ((InvalidElevation : ℚ) : ℝ)
  else
    let distance := distancePixels * (meterPerPixel / 2)
    let angle := rad2deg (Real.arccos (deltaY / distancePixels))
    let bearing := normalizeHeading ((if centerX < x then angle else 360 - angle) + heading)
    let projected := projectWgs84 latitude longitude bearing distance
    let latStep := (worldMapNortheastLat - worldMapSouthwestLat) / worldMapHeight
    let longStep := (worldMapNortheastLong - worldMapSouthwestLong) / worldMapWidth
    let latPixelDelta := (latitude - projected.1) / latStep
    let longPixelDelta := (projected.2 - longitude) / longStep
    let gy := ⌊currentWorldGridY + latPixelDelta⌋
    let gx := ⌊currentWorldGridX + longPixelDelta⌋
    if (gy : ℝ) < 0 ∨ worldMapHeight < (gy : ℝ) ∨ (gx : ℝ) < 0 ∨ worldMapWidth < (gx : ℝ) then
      ((UnknownElevation : ℚ) : ℝ)
    else worldMap gy gx

/-! ## Claim theorems -/

/-- C1: for every histogram-derived `maxElevation`, altitude, vertical speed
and gear-down offset, the renderer computes
`referenceAltitude = altitude + (verticalSpeed <= -1000 ? verticalSpeed * 0.5 : 0)`
and selects normal mode iff
`maxElevation >= referenceAltitude - gearDownAltitudeOffset`; in particular for
altitude 10000 ft, vertical speed -1500 ft/min and maximum terrain 9500 ft,
`referenceAltitude = 9250`, normal mode is selected and
`highDensityRed = 11250`. -/
theorem c1_reference_altitude_and_mode_selection (histogram : ℕ → ℚ)
    (cutOffAltitude altitude verticalSpeed gearDownAltitudeOffset minimumElevation : ℚ) :
    (a32nxRenderNavigationDisplayMode histogram cutOffAltitude altitude verticalSpeed
        gearDownAltitudeOffset = A32nxRenderMode.normal ↔
      referenceAltitude altitude verticalSpeed - gearDownAltitudeOffset ≤
        (a32nxHistogramStatistics histogram cutOffAltitude).maxElevation)
    ∧ referenceAltitude 10000 (-1500) = 9250
    ∧ a32nxRenderModeOfMaxElevation 9500 (referenceAltitude 10000 (-1500)) 250
        = A32nxRenderMode.normal
    ∧ (a32nxCalculateNormalModeWarningThresholds (referenceAltitude 10000 (-1500))
        minimumElevation 250).2.2 = 11250 := by
  have href : referenceAltitude 10000 (-1500) = 9250 := by
    norm_num [referenceAltitude]
  refine ⟨?_, href, ?_, ?_⟩
  · unfold a32nxRenderNavigationDisplayMode a32nxRenderModeOfMaxElevation
    split_ifs with h
    · simp [h]
    · simp [h]
  · rw [href]
    norm_num [a32nxRenderModeOfMaxElevation]
  · rw [href]
    norm_num [a32nxCalculateNormalModeWarningThresholds,
      RenderingNormalModeHighDensityRedOffset]

/-- C4 counterexample: with `referenceAltitude = 2100` and
`minimumElevation = 0` (flat-earth clamp inactive), the code yields
`lowDensityGreen = 100`, while `max(minElevation + 200, referenceAltitude - 2000) = 200`. -/
theorem c4_counterexample :
    (a32nxCalculateNormalModeGreenThresholds 2100 0 (-1) 0 0).1 = 100 ∧
    max ((0 : ℚ) + 200) (2100 - 2000) = 200 ∧ (100 : ℚ) ≠ 200 := by
  refine ⟨?_, by norm_num, by norm_num⟩
  norm_num [a32nxCalculateNormalModeGreenThresholds,
    RenderingNormalModeLowDensityGreenOffset, RenderingNormalModeHighDensityGreenOffset]

/-- The pattern `if a <= m then m + 200 else a` agrees with `max (m + 200) a`
outside the gap `m < a < m + 200`. -/
theorem iteThreshold_eq_max (a m : ℚ) (h : m + 200 ≤ a ∨ a ≤ m) :
    (if a ≤ m then m + 200 else a) = max (m + 200) a := by
  rcases le_or_lt a m with h1 | h1
  · rw [if_pos h1, max_eq_left (by linarith)]
  · rw [if_neg (not_le.mpr h1)]
    rcases h with h | h
    · rw [max_eq_right h]
    · linarith

/-- Inside the gap the pattern returns `a` itself. -/
theorem iteThreshold_eq_self (a m : ℚ) (h : m < a) :
    (if a ≤ m then m + 200 else a) = a := if_neg (not_le.mpr h)

/-- C4 amended: prior to the flat-earth clamp, each threshold equals
`max(minimumElevation + 200, referenceAltitude - offset)` except when
`referenceAltitude - offset` lies strictly between `minimumElevation` and
`minimumElevation + 200`, where the code returns `referenceAltitude - offset`
itself (offsets 2000 / 1000 / gear-down for lowDensityGreen /
highDensityGreen / lowDensityYellow). -/
theorem c4_amended
    (refAlt minElev flatEarth lowerPercentile halfElevation gearDownOffset : ℚ)
    (hflat : flatEarth < 0) :
    ((minElev + 200 ≤ refAlt - 2000 ∨ refAlt - 2000 ≤ minElev) →
      (a32nxCalculateNormalModeGreenThresholds refAlt minElev flatEarth
          lowerPercentile halfElevation).1 = max (minElev + 200) (refAlt - 2000)) ∧
    (minElev < refAlt - 2000 →
      (a32nxCalculateNormalModeGreenThresholds refAlt minElev flatEarth
          lowerPercentile halfElevation).1 = refAlt - 2000) ∧
    ((minElev + 200 ≤ refAlt - 1000 ∨ refAlt - 1000 ≤ minElev) →
      (a32nxCalculateNormalModeGreenThresholds refAlt minElev flatEarth
          lowerPercentile halfElevation).2 = max (minElev + 200) (refAlt - 1000)) ∧
    (minElev < refAlt - 1000 →
      (a32nxCalculateNormalModeGreenThresholds refAlt minElev flatEarth
          lowerPercentile halfElevation).2 = refAlt - 1000) ∧
    ((minElev + 200 ≤ refAlt - gearDownOffset ∨ refAlt - gearDownOffset ≤ minElev) →
      (a32nxCalculateNormalModeWarningThresholds refAlt minElev gearDownOffset).1
        = max (minElev + 200) (refAlt - gearDownOffset)) ∧
    (minElev < refAlt - gearDownOffset →
      (a32nxCalculateNormalModeWarningThresholds refAlt minElev gearDownOffset).1
        = refAlt - gearDownOffset) := by
  unfold a32nxCalculateNormalModeGreenThresholds a32nxCalculateNormalModeWarningThresholds
    RenderingNormalModeLowDensityGreenOffset RenderingNormalModeHighDensityGreenOffset
  dsimp only
  rw [if_neg (not_le.mpr hflat)]
  exact ⟨fun hc => iteThreshold_eq_max _ _ hc,
    fun hc => iteThreshold_eq_self _ _ hc,
    fun hc => iteThreshold_eq_max _ _ hc,
    fun hc => iteThreshold_eq_self _ _ hc,
    fun hc => iteThreshold_eq_max _ _ hc,
    fun hc => iteThreshold_eq_self _ _ hc⟩

/-- C4 witness: at `referenceAltitude = 5000`, `minimumElevation = 0`,
gear offset 250 the max-formulas hold. -/
theorem c4_witness :
    (a32nxCalculateNormalModeGreenThresholds 5000 0 (-1) 0 0).1 = max ((0 : ℚ) + 200) (5000 - 2000)
    ∧ (a32nxCalculateNormalModeWarningThresholds 5000 0 250).1 = 5000 - 250 := by
  exact ⟨(c4_amended 5000 0 (-1) 0 0 250 (by norm_num)).1 (Or.inl (by norm_num)),
    (c4_amended 5000 0 (-1) 0 0 250 (by norm_num)).2.2.2.2.2 (by norm_num)⟩

/-- C5 counterexample: with `referenceAltitude = 1100`, `minimumElevation = 0`
(derivable from a histogram with `minElevation = 0`, `maxElevation = 900`, so
`flatEarth = -800`, `halfElevation = 450`, and normal mode active for gear
offset 250 since `900 >= 1100 - 250`), the thresholds are not ordered:
`lowDensityGreen = 200 > highDensityGreen = 100`. -/
theorem c5_counterexample :
    a32nxCalculateNormalModeGreenThresholds 1100 0 (-800) 0 450 = (200, 100) ∧
    a32nxCalculateNormalModeWarningThresholds 1100 0 250 = (850, 2100, 3100) ∧
    ¬ ((200 : ℚ) ≤ 100) := by
  refine ⟨?_, ?_, by norm_num⟩
  · norm_num [a32nxCalculateNormalModeGreenThresholds,
      RenderingNormalModeLowDensityGreenOffset, RenderingNormalModeHighDensityGreenOffset,
      Prod.ext_iff]
  · norm_num [a32nxCalculateNormalModeWarningThresholds,
      RenderingNormalModeHighDensityYellowOffset, RenderingNormalModeHighDensityRedOffset,
      Prod.ext_iff]

/-- C5 amended: the normal-mode threshold ordering
`lowDensityGreen <= highDensityGreen <= lowDensityYellow <= highDensityYellow <= highDensityRed`
holds for gear offsets 250/500 provided additionally
`minimumElevation + 1200 <= referenceAltitude` (i.e. the aircraft reference is
at least 1200 ft above the histogram floor); without that margin the
counterexample shows the ordering fails. -/
theorem c5_amended
    (refAlt minElev flatEarth lowerPercentile halfElevation gearDownOffset : ℚ)
    (hg : gearDownOffset = 250 ∨ gearDownOffset = 500)
    (hmargin : minElev + 1200 ≤ refAlt) :
    (a32nxCalculateNormalModeGreenThresholds refAlt minElev flatEarth
        lowerPercentile halfElevation).1 ≤
      (a32nxCalculateNormalModeGreenThresholds refAlt minElev flatEarth
        lowerPercentile halfElevation).2 ∧
    (a32nxCalculateNormalModeGreenThresholds refAlt minElev flatEarth
        lowerPercentile halfElevation).2 ≤
      (a32nxCalculateNormalModeWarningThresholds refAlt minElev gearDownOffset).1 ∧
    (a32nxCalculateNormalModeWarningThresholds refAlt minElev gearDownOffset).1 ≤
      (a32nxCalculateNormalModeWarningThresholds refAlt minElev gearDownOffset).2.1 ∧
    (a32nxCalculateNormalModeWarningThresholds refAlt minElev gearDownOffset).2.1 ≤
      (a32nxCalculateNormalModeWarningThresholds refAlt minElev gearDownOffset).2.2 := by
  unfold a32nxCalculateNormalModeGreenThresholds a32nxCalculateNormalModeWarningThresholds
    RenderingNormalModeLowDensityGreenOffset RenderingNormalModeHighDensityGreenOffset
    RenderingNormalModeHighDensityYellowOffset RenderingNormalModeHighDensityRedOffset
  dsimp only
  rcases hg with rfl | rfl <;>
    (split_ifs <;> (try casesm* _ ∧ _) <;>
      refine ⟨by linarith, by linarith, by linarith, by linarith⟩)

/-- C5 witness: the ordering at `referenceAltitude = 5000`,
`minimumElevation = 0`, gear offset 250. -/
theorem c5_witness :
    (a32nxCalculateNormalModeGreenThresholds 5000 0 (-1) 0 0).1 ≤
      (a32nxCalculateNormalModeGreenThresholds 5000 0 (-1) 0 0).2 ∧
    (a32nxCalculateNormalModeGreenThresholds 5000 0 (-1) 0 0).2 ≤
      (a32nxCalculateNormalModeWarningThresholds 5000 0 250).1 ∧
    (a32nxCalculateNormalModeWarningThresholds 5000 0 250).1 ≤
      (a32nxCalculateNormalModeWarningThresholds 5000 0 250).2.1 ∧
    (a32nxCalculateNormalModeWarningThresholds 5000 0 250).2.1 ≤
      (a32nxCalculateNormalModeWarningThresholds 5000 0 250).2.2 :=
  c5_amended 5000 0 (-1) 0 0 250 (Or.inl rfl) (by norm_num)

/-- C6 counterexample: with `lowerPercentile = halfElevation = 10000` and
`minimumElevation = maximumElevation = 0` the sanity clamp fires, yet the
returned triple `(10000, 100, 100)` violates
`lowerDensity <= higherDensity`. -/
theorem c6_counterexample :
    a32nxCalculatePeaksModeThresholds 10000 0 10000 0 0 = (10000, 100, 100) ∧
    ¬ ((10000 : ℚ) ≤ 100) := by
  refine ⟨?_, by norm_num⟩
  norm_num [a32nxCalculatePeaksModeThresholds, Prod.ext_iff, min_def]

/-- C6 amended: the clamp `higherDensity = solidDensity = maxElevation + 100`
fires exactly when the unclamped triple is not strictly increasing or the
percentile ordering is violated; and the returned triple is ordered
(`lowerDensity <= higherDensity <= solidDensity`) provided additionally
`min(lowerPercentile, halfElevation) <= maximumElevation + 100`, as holds for
pipeline-derived inputs; for unrestricted inputs the counterexample shows the
ordering fails. -/
theorem c6_amended
    (lowerPercentile upperPercentile halfElevation minElev maxElev : ℚ) :
    (((a32nxCalculatePeaksModeThresholds lowerPercentile upperPercentile halfElevation
          minElev maxElev).2.1 = maxElev + 100 ∧
      (a32nxCalculatePeaksModeThresholds lowerPercentile upperPercentile halfElevation
          minElev maxElev).2.2 = maxElev + 100) ↔
      (min upperPercentile ((maxElev - minElev) * 0.65 + minElev) ≤
          min lowerPercentile halfElevation ∨
        (maxElev - minElev) * 0.95 + minElev ≤ min lowerPercentile halfElevation ∨
        (maxElev - minElev) * 0.95 + minElev ≤
          min upperPercentile ((maxElev - minElev) * 0.65 + minElev) ∨
        upperPercentile ≤ lowerPercentile ∨
        (maxElev - minElev) * 0.95 + minElev ≤ lowerPercentile ∨
        (maxElev - minElev) * 0.95 + minElev ≤ upperPercentile)) ∧
    (min lowerPercentile halfElevation ≤ maxElev + 100 →
      (a32nxCalculatePeaksModeThresholds lowerPercentile upperPercentile halfElevation
          minElev maxElev).1 ≤
        (a32nxCalculatePeaksModeThresholds lowerPercentile upperPercentile halfElevation
          minElev maxElev).2.1 ∧
      (a32nxCalculatePeaksModeThresholds lowerPercentile upperPercentile halfElevation
          minElev maxElev).2.1 ≤
        (a32nxCalculatePeaksModeThresholds lowerPercentile upperPercentile halfElevation
          minElev maxElev).2.2) := by
  unfold a32nxCalculatePeaksModeThresholds
  dsimp only
  split_ifs with hclamp
  · exact ⟨iff_of_true ⟨rfl, rfl⟩ hclamp, fun h => ⟨h, le_refl _⟩⟩
  · push_neg at hclamp
    obtain ⟨h1, h2, h3, h4, h5, h6⟩ := hclamp
    refine ⟨iff_of_false ?_ ?_, fun _ => ⟨le_of_lt h1, le_of_lt h3⟩⟩
    · rintro ⟨ha, hb⟩
      dsimp only at ha hb
      rw [ha, hb] at h3
      exact absurd h3 (lt_irrefl _)
    · push_neg
      exact ⟨h1, h2, h3, h4, h5, h6⟩

/-- C6 witness: ordered output at a clamped pipeline-shaped input. -/
theorem c6_witness :
    (a32nxCalculatePeaksModeThresholds 0 100 50 0 100).1 ≤
      (a32nxCalculatePeaksModeThresholds 0 100 50 0 100).2.1 ∧
    (a32nxCalculatePeaksModeThresholds 0 100 50 0 100).2.1 ≤
      (a32nxCalculatePeaksModeThresholds 0 100 50 0 100).2.2 :=
  (c6_amended 0 100 50 0 100).2 (by norm_num [min_def])

/-- The ternary `cond > x ? cond : x` equals `max`. -/
theorem iteGt_eq_max (a b : ℚ) : (if b < a then a else b) = max a b := by
  rcases lt_or_le b a with h | h
  · rw [if_pos h, max_eq_left (le_of_lt h)]
  · rw [if_neg (not_lt.mpr h), max_eq_right h]

/-- C8: `analyzeMetadata` maps the metadata row to the frame metadata: in
normal mode `MinimumElevation = max(cutOffAltitude, lowDensityGreen)`,
`MinimumElevationMode = Warning` iff `lowDensityYellow <= highDensityGreen`
(else `PeaksMode`), `MaximumElevation = maxElevation`,
`MaximumElevationMode = Caution` iff `maxElevation >= highDensityRed` (else
`Warning`); in peaks mode, `(-1, 0)` when `maxElevation < 0`, else
`(max(lowerDensity, minElevation), maxElevation)`, with both modes
`PeaksMode`. -/
theorem c8_metadata_mapping (metadata : Fin 8 → ℚ) (cutOffAltitude : ℚ) :
    (metadata 0 = 0 →
      (analyzeMetadata metadata cutOffAltitude).MinimumElevation
          = max cutOffAltitude (metadata 7) ∧
      (analyzeMetadata metadata cutOffAltitude).MinimumElevationMode
          = (if metadata 5 ≤ metadata 6 then TerrainLevelMode.Warning
             else TerrainLevelMode.PeaksMode) ∧
      (analyzeMetadata metadata cutOffAltitude).MaximumElevation = metadata 2 ∧
      (analyzeMetadata metadata cutOffAltitude).MaximumElevationMode
          = (if metadata 3 ≤ metadata 2 then TerrainLevelMode.Caution
             else TerrainLevelMode.Warning)) ∧
    (metadata 0 ≠ 0 →
      (metadata 2 < 0 →
        (analyzeMetadata metadata cutOffAltitude).MinimumElevation = -1 ∧
        (analyzeMetadata metadata cutOffAltitude).MaximumElevation = 0) ∧
      (0 ≤ metadata 2 →
        (analyzeMetadata metadata cutOffAltitude).MinimumElevation
            = max (metadata 5) (metadata 1) ∧
        (analyzeMetadata metadata cutOffAltitude).MaximumElevation = metadata 2) ∧
      (analyzeMetadata metadata cutOffAltitude).MinimumElevationMode
          = TerrainLevelMode.PeaksMode ∧
      (analyzeMetadata metadata cutOffAltitude).MaximumElevationMode
          = TerrainLevelMode.PeaksMode) := by
  unfold analyzeMetadata
  constructor
  · intro h0
    rw [if_pos h0]
    exact ⟨iteGt_eq_max _ _, rfl, rfl, rfl⟩
  · intro h0
    rw [if_neg h0]
    by_cases hmax : metadata 2 < 0
    · rw [if_pos hmax]
      exact ⟨fun _ => ⟨rfl, rfl⟩, fun h => absurd hmax (not_lt.mpr h), rfl, rfl⟩
    · rw [if_neg hmax]
      exact ⟨fun h => absurd h hmax, fun _ => ⟨iteGt_eq_max _ _, rfl⟩, rfl, rfl⟩

/-- C8 witness: a normal-mode metadata row and a peaks-mode metadata row. -/
theorem c8_witness :
    (analyzeMetadata ![0, 5, 900, 3100, 0, 850, 100, 200] 300).MinimumElevation = 300 ∧
    (analyzeMetadata ![0, 5, 900, 3100, 0, 850, 100, 200] 300).MaximumElevationMode
        = TerrainLevelMode.Warning ∧
    (analyzeMetadata ![1, 100, 900, 0, 0, 300, 0, 0] 300).MinimumElevation = 300 ∧
    (analyzeMetadata ![1, 100, 900, 0, 0, 300, 0, 0] 300).MaximumElevationMode
        = TerrainLevelMode.PeaksMode := by
  have hn := (c8_metadata_mapping ![0, 5, 900, 3100, 0, 850, 100, 200] 300).1 rfl
  have hp := (c8_metadata_mapping ![1, 100, 900, 0, 0, 300, 0, 0] 300).2 (by norm_num)
  refine ⟨?_, ?_, ?_, hp.2.2.2⟩
  · rw [hn.1, show ![(0 : ℚ), 5, 900, 3100, 0, 850, 100, 200] 7 = 200 from rfl]
    norm_num [max_def]
  · rw [hn.2.2.2]
    norm_num
  · rw [(hp.2.1 (by norm_num)).1,
      show ![(1 : ℚ), 100, 900, 0, 0, 300, 0, 0] 5 = 300 from rfl,
      show ![(1 : ℚ), 100, 900, 0, 0, 300, 0, 0] 1 = 100 from rfl]
    norm_num [max_def]

/-- C10: outside startup, when the new configuration stops rendering (active
goes false while previously active) or starts rendering (active goes true from
inactive or no previous config, or range / arcMode / efisMode changed),
`configureNavigationDisplay` clears the sweep interval and the update timeout,
sets `resetRenderingData`, clears the last frame and the transition data, and
emits the reset metadata message — in particular also on plain activation. -/
theorem c10_reconfiguration_reset (s : SideState) (config : NavigationDisplay)
    (hcond :
      (config.active = false ∧ ∃ lc, s.config = some lc ∧ lc.active = true) ∨
      (config.active = true ∧
        (s.config = none ∨ ∃ lc, s.config = some lc ∧ lc.active = false)) ∨
      (∃ lc, s.config = some lc ∧
        (lc.range ≠ config.range ∨ lc.arcMode ≠ config.arcMode ∨
          lc.efisMode ≠ config.efisMode))) :
    (configureNavigationDisplay s config false).1.durationInterval = none ∧
    (configureNavigationDisplay s config false).1.timeout = none ∧
    (configureNavigationDisplay s config false).1.resetRenderingData = true ∧
    (configureNavigationDisplay s config false).1.lastFrame = none ∧
    (configureNavigationDisplay s config false).1.lastTransitionThresholds = none ∧
    (configureNavigationDisplay s config false).1.lastTransitionTimestamp = 0 ∧
    (configureNavigationDisplay s config false).1.lastTransitionFrames = [] ∧
    (configureNavigationDisplay s config false).2.1 =
      [{ MinimumElevation := -1
         MinimumElevationMode := TerrainLevelMode.PeaksMode
         MaximumElevation := -1
         MaximumElevationMode := TerrainLevelMode.PeaksMode
         FirstFrame := true
         DisplayRange := 0
         DisplayMode := 0
         FrameByteCount := 0 }] := by
  rcases hcond with ⟨hfa, lc2, hlc2, hact2⟩ | ⟨hta, hrest⟩ | ⟨lc2, hlc2, hne⟩
  · unfold configureNavigationDisplay
    rw [hlc2]
    simp [hfa, hact2, resetFrameData, resetMetadataMessage]
  · rcases hrest with hnone | ⟨lc2, hlc2, hact2⟩
    · unfold configureNavigationDisplay
      rw [hnone]
      simp [hta, resetFrameData, resetMetadataMessage]
    · unfold configureNavigationDisplay
      rw [hlc2]
      simp [hta, hact2, resetFrameData, resetMetadataMessage]
  · unfold configureNavigationDisplay
    rw [hlc2]
    rcases hne with h | h | h <;> simp [h, resetFrameData, resetMetadataMessage]

/-- C10 witness: plain activation from an empty previous configuration clears
pending state and emits the reset metadata. -/
theorem c10_witness :
    (configureNavigationDisplay
        { config := none, timeout := some 1, durationInterval := some 2,
          resetRenderingData := false, startupTimestamp := 0, lastFrame := some [1],
          lastTransitionTimestamp := 3,
          lastTransitionThresholds :=
            some { MinimumElevation := 0, MinimumElevationMode := TerrainLevelMode.Warning,
                   MaximumElevation := 0, MaximumElevationMode := TerrainLevelMode.Warning },
          lastTransitionFrames := [[2]] }
        { range := 10, arcMode := true, active := true, efisMode := 0, mapOffsetX := 0,
          mapWidth := 756, mapHeight := 492 }
        false).2.1 =
      [{ MinimumElevation := -1
         MinimumElevationMode := TerrainLevelMode.PeaksMode
         MaximumElevation := -1
         MaximumElevationMode := TerrainLevelMode.PeaksMode
         FirstFrame := true
         DisplayRange := 0
         DisplayMode := 0
         FrameByteCount := 0 }] ∧
    (configureNavigationDisplay
        { config := none, timeout := some 1, durationInterval := some 2,
          resetRenderingData := false, startupTimestamp := 0, lastFrame := some [1],
          lastTransitionTimestamp := 3,
          lastTransitionThresholds :=
            some { MinimumElevation := 0, MinimumElevationMode := TerrainLevelMode.Warning,
                   MaximumElevation := 0, MaximumElevationMode := TerrainLevelMode.Warning },
          lastTransitionFrames := [[2]] }
        { range := 10, arcMode := true, active := true, efisMode := 0, mapOffsetX := 0,
          mapWidth := 756, mapHeight := 492 }
        false).1.resetRenderingData = true := by
  have h := c10_reconfiguration_reset
    { config := none, timeout := some 1, durationInterval := some 2,
      resetRenderingData := false, startupTimestamp := 0, lastFrame := some [1],
      lastTransitionTimestamp := 3,
      lastTransitionThresholds :=
        some { MinimumElevation := 0, MinimumElevationMode := TerrainLevelMode.Warning,
               MaximumElevation := 0, MaximumElevationMode := TerrainLevelMode.Warning },
      lastTransitionFrames := [[2]] }
    { range := 10, arcMode := true, active := true, efisMode := 0, mapOffsetX := 0,
      mapWidth := 756, mapHeight := 492 }
    (Or.inr (Or.inl ⟨rfl, Or.inl rfl⟩))
  exact ⟨h.2.2.2.2.2.2.2, h.2.2.1⟩

/-- C9 counterexample: a coordinate whose floored linear index is negative
(aircraft at latitude 0 querying latitude 1, grid origin pixel (0, 0)) falls
through the unguarded array access and yields the undefined value, not
`UNKNOWN`. -/
theorem c9_counterexample :
    extractElevation [7] 1 1 1 1 0 0 1 0 0 1 0 = none ∧
    (none : Option ℚ) ≠ some UnknownElevation := by
  have hidx : extractElevationIndex 1 1 1 1 0 0 1 0 0 1 0 = -1 := by
    unfold extractElevationIndex
    dsimp only
    rw [show ((0 : ℚ) + (0 - 1) / (1 / 1)) * 1 + 0 + ((0 : ℚ) - 0) / (1 / 1) = ((-1 : ℤ) : ℚ)
      by norm_num]
    exact Int.floor_intCast (-1)
  constructor
  · unfold extractElevation
    rw [if_neg (by norm_num)]
    dsimp only
    rw [hidx, if_neg (by norm_num), if_neg (by norm_num)]
  · simp

/-- C9 amended: `extractElevation` returns `INVALID` on the empty cache,
`UNKNOWN` only for indices at or beyond the end of the grid, the grid sample
for indices inside the grid, and an undefined value (the array access is not
guarded below zero) for negative indices. -/
theorem c9_amended
    (cpuData : List ℚ) (latitudeStep longitudeStep minHeightPerTile minWidthPerTile : ℚ)
    (currentGridPositionX currentGridPositionY width : ℚ)
    (aircraftLatitude aircraftLongitude latitude longitude : ℚ) :
    (cpuData.length = 0 →
      extractElevation cpuData latitudeStep longitudeStep minHeightPerTile minWidthPerTile
        currentGridPositionX currentGridPositionY width
        aircraftLatitude aircraftLongitude latitude longitude = some InvalidElevation) ∧
    (cpuData.length ≠ 0 →
      ((cpuData.length : ℤ) ≤
          extractElevationIndex latitudeStep longitudeStep minHeightPerTile minWidthPerTile
            currentGridPositionX currentGridPositionY width
            aircraftLatitude aircraftLongitude latitude longitude →
        extractElevation cpuData latitudeStep longitudeStep minHeightPerTile minWidthPerTile
          currentGridPositionX currentGridPositionY width
          aircraftLatitude aircraftLongitude latitude longitude = some UnknownElevation) ∧
      (0 ≤ extractElevationIndex latitudeStep longitudeStep minHeightPerTile minWidthPerTile
            currentGridPositionX currentGridPositionY width
            aircraftLatitude aircraftLongitude latitude longitude →
        extractElevationIndex latitudeStep longitudeStep minHeightPerTile minWidthPerTile
            currentGridPositionX currentGridPositionY width
            aircraftLatitude aircraftLongitude latitude longitude < (cpuData.length : ℤ) →
        extractElevation cpuData latitudeStep longitudeStep minHeightPerTile minWidthPerTile
          currentGridPositionX currentGridPositionY width
          aircraftLatitude aircraftLongitude latitude longitude =
        some (cpuData.getD
          (extractElevationIndex latitudeStep longitudeStep minHeightPerTile minWidthPerTile
            currentGridPositionX currentGridPositionY width
            aircraftLatitude aircraftLongitude latitude longitude).toNat 0)) ∧
      (extractElevationIndex latitudeStep longitudeStep minHeightPerTile minWidthPerTile
          currentGridPositionX currentGridPositionY width
          aircraftLatitude aircraftLongitude latitude longitude < 0 →
        extractElevation cpuData latitudeStep longitudeStep minHeightPerTile minWidthPerTile
          currentGridPositionX currentGridPositionY width
          aircraftLatitude aircraftLongitude latitude longitude = none)) := by
  constructor
  · intro h0
    unfold extractElevation
    rw [if_pos h0]
  · intro h0
    unfold extractElevation
    rw [if_neg h0]
    dsimp only
    refine ⟨fun hge => ?_, fun h1 h2 => ?_, fun hneg => ?_⟩
    · rw [if_pos hge]
    · rw [if_neg (not_le.mpr h2), if_pos h1]
    · rw [if_neg (not_le.mpr (lt_of_lt_of_le hneg (Int.natCast_nonneg _))),
        if_neg (not_le.mpr hneg)]

/-- C9 witness: the empty-cache and in-range cases at concrete inputs. -/
theorem c9_witness :
    extractElevation [] 1 1 1 1 0 0 1 0 0 0 0 = some InvalidElevation ∧
    extractElevation [7] 1 1 1 1 0 0 1 0 0 0 0 = some 7 := by
  have hidx : extractElevationIndex 1 1 1 1 0 0 1 0 0 0 0 = 0 := by
    unfold extractElevationIndex
    dsimp only
    rw [show ((0 : ℚ) + (0 - 0) / (1 / 1)) * 1 + 0 + ((0 : ℚ) - 0) / (1 / 1) = 0 by norm_num]
    exact Int.floor_zero
  refine ⟨(c9_amended [] 1 1 1 1 0 0 1 0 0 0 0).1 rfl, ?_⟩
  have h2 := ((c9_amended [7] 1 1 1 1 0 0 1 0 0 0 0).2 (by simp)).2.1
  rw [hidx] at h2
  simpa using h2 (le_refl 0) (by norm_num)

/-! ## Real-analysis helpers for the glide slope and the arc guard -/

/-- Bound `arctan x <= x` for nonnegative `x`. -/
theorem arctan_le_self_of_nonneg {x : ℝ} (hx : 0 ≤ x) : Real.arctan x ≤ x := by
  rcases lt_or_le x (Real.pi / 2) with h | h
  · have hneg : -(Real.pi / 2) < x :=
      lt_of_lt_of_le (neg_lt_zero.mpr (by positivity)) hx
    calc Real.arctan x ≤ Real.arctan (Real.tan x) :=
          Real.arctan_strictMono.monotone (Real.le_tan hx h)
      _ = x := Real.arctan_tan hneg h
  · exact le_trans (Real.arctan_lt_pi_div_two x).le h

/-- Bound `arctan x < 0` for negative `x`. -/
theorem arctan_lt_zero_of_neg {x : ℝ} (hx : x < 0) : Real.arctan x < 0 := by
  simpa [Real.arctan_zero] using Real.arctan_strictMono hx

/-- Evaluation rule for JavaScript rounding. -/
theorem mathRound_eq (q : ℚ) (n : ℤ) (h1 : (n : ℚ) ≤ q + 1 / 2) (h2 : q + 1 / 2 < n + 1) :
    mathRound q = (n : ℚ) := by
  unfold mathRound
  rw [Int.floor_eq_iff.mpr ⟨h1, h2⟩]

/-- The interpolated cut-off altitude at exactly 4 nm rounds to 200. -/
theorem cutOffInterpolationAtFour :
    min (max (mathRound ((RenderingCutOffAltitudeMinimimum - RenderingCutOffAltitudeMaximum)
            / ThreeNauticalMilesInFeet * ((4 : ℚ) * FeetPerNauticalMile - FeetPerNauticalMile)
          + RenderingCutOffAltitudeMaximum)) RenderingCutOffAltitudeMinimimum)
      RenderingCutOffAltitudeMaximum = 200 := by
  have h : mathRound ((RenderingCutOffAltitudeMinimimum - RenderingCutOffAltitudeMaximum)
        / ThreeNauticalMilesInFeet * ((4 : ℚ) * FeetPerNauticalMile - FeetPerNauticalMile)
      + RenderingCutOffAltitudeMaximum) = ((200 : ℤ) : ℚ) := by
    apply mathRound_eq
    · norm_num [RenderingCutOffAltitudeMinimimum, RenderingCutOffAltitudeMaximum,
        ThreeNauticalMilesInFeet, FeetPerNauticalMile]
    · norm_num [RenderingCutOffAltitudeMinimimum, RenderingCutOffAltitudeMaximum,
        ThreeNauticalMilesInFeet, FeetPerNauticalMile]
  rw [h]
  norm_num [RenderingCutOffAltitudeMinimimum, RenderingCutOffAltitudeMaximum, max_def, min_def]

/-- C2 counterexample: with the aircraft 500 ft below the destination elevation
at 2 nm, the code's `glideRadian` is forced to 0 and the result is 200, while
the claim's glide-angle formula is negative (neither above 3 degrees nor zero),
so the claim prescribes the interpolated value 333. -/
theorem c2_counterexample :
    calculateAbsoluteCutOffAltitude true 1000 500 2 = 200 ∧
    cutOffAltitudeClaimC2 true 1000 500 2 = 333 ∧ (200 : ℚ) ≠ 333 := by
  refine ⟨?_, ?_, by norm_num⟩
  · have hg : glideRadian 1000 500 2 = 0 := by
      unfold glideRadian
      rw [if_neg (by norm_num)]
    unfold calculateAbsoluteCutOffAltitude
    rw [hg, if_neg (by simp), if_pos (by norm_num [InvalidElevation]),
      if_pos (by norm_num [RenderingMaxAirportDistance]),
      if_pos (by norm_num : (0 : ℝ) < 0.0523599),
      if_pos (Or.inr rfl)]
    norm_num [RenderingCutOffAltitudeMinimimum]
  · have hxneg : (((500 : ℚ) - 1000 : ℚ) : ℝ) / (((2 : ℚ) * 6076.12 : ℚ) : ℝ) < 0 := by
      push_cast
      norm_num
    have harct : Real.arctan ((((500 : ℚ) - 1000 : ℚ) : ℝ) / (((2 : ℚ) * 6076.12 : ℚ) : ℝ)) < 0 :=
      arctan_lt_zero_of_neg hxneg
    unfold cutOffAltitudeClaimC2
    rw [if_neg (by norm_num [InvalidElevation]),
      if_neg (by norm_num [RenderingMaxAirportDistance]),
      if_neg (not_lt.mpr (le_of_lt (lt_trans harct (by norm_num)))),
      if_neg ?hor]
    case hor =>
      rintro (h | h)
      · norm_num at h
      · exact absurd h (ne_of_lt harct)
    have h : mathRound ((400 : ℚ) + (200 - 400) * (2 - 1) / 3) = ((333 : ℤ) : ℚ) := by
      apply mathRound_eq <;> norm_num
    rw [h]
    norm_num [max_def, min_def]

/-- C2 amended: `calculateAbsoluteCutOffAltitude` returns -500 on invalid
destination data or an `INVALID` destination elevation; otherwise, with
`glideRadian` as computed by the code (zero unless the aircraft is above the
destination elevation and the distance is positive), it returns 400 beyond
4 nm, 400 when the glide angle is at least 3 degrees, 200 when the glide is
below 3 degrees and the distance is at most 1 nm or the glide is zero, and
otherwise the rounded linear model from 400 at 1 nm, clamped to [200, 400]. -/
theorem c2_amended (destinationDataValid : Bool)
    (destinationElevation altitude distance : ℚ) :
    (destinationDataValid = false →
      calculateAbsoluteCutOffAltitude destinationDataValid destinationElevation altitude distance
        = -500) ∧
    (destinationElevation = InvalidElevation →
      calculateAbsoluteCutOffAltitude destinationDataValid destinationElevation altitude distance
        = -500) ∧
    (destinationDataValid = true → destinationElevation ≠ InvalidElevation →
      ((4 < distance →
        calculateAbsoluteCutOffAltitude destinationDataValid destinationElevation altitude
          distance = 400) ∧
      (distance ≤ 4 →
        (0.0523599 : ℝ) ≤ glideRadian destinationElevation altitude distance →
        calculateAbsoluteCutOffAltitude destinationDataValid destinationElevation altitude
          distance = 400) ∧
      (distance ≤ 4 →
        glideRadian destinationElevation altitude distance < 0.0523599 →
        (distance ≤ 1 ∨ glideRadian destinationElevation altitude distance = 0) →
        calculateAbsoluteCutOffAltitude destinationDataValid destinationElevation altitude
          distance = 200) ∧
      (distance ≤ 4 →
        glideRadian destinationElevation altitude distance < 0.0523599 →
        1 < distance →
        glideRadian destinationElevation altitude distance ≠ 0 →
        calculateAbsoluteCutOffAltitude destinationDataValid destinationElevation altitude
          distance =
          min (max (mathRound ((RenderingCutOffAltitudeMinimimum - RenderingCutOffAltitudeMaximum)
                / ThreeNauticalMilesInFeet
                * (distance * FeetPerNauticalMile - FeetPerNauticalMile)
              + RenderingCutOffAltitudeMaximum))
            RenderingCutOffAltitudeMinimimum) RenderingCutOffAltitudeMaximum))) := by
  have h4eq : RenderingMaxAirportDistance = (4 : ℚ) := by
    norm_num [RenderingMaxAirportDistance]
  refine ⟨?_, ?_, ?_⟩
  · intro h
    unfold calculateAbsoluteCutOffAltitude
    rw [if_pos h]
    norm_num [HistogramMinimumElevation]
  · intro h
    unfold calculateAbsoluteCutOffAltitude
    by_cases hval : destinationDataValid = false
    · rw [if_pos hval]
      norm_num [HistogramMinimumElevation]
    · rw [if_neg hval, if_neg (not_not_intro h)]
      norm_num [HistogramMinimumElevation]
  · intro hvalid hne
    unfold calculateAbsoluteCutOffAltitude
    rw [if_neg (by simp [hvalid]), if_pos hne, h4eq]
    refine ⟨?_, ?_, ?_, ?_⟩
    · intro h4
      rw [if_neg (not_le.mpr h4)]
      norm_num [RenderingCutOffAltitudeMaximum]
    · intro h4 hge
      rw [if_pos h4, if_neg (not_lt.mpr hge)]
      norm_num [RenderingCutOffAltitudeMaximum]
    · intro h4 hlt hor
      rw [if_pos h4, if_pos hlt, if_pos hor]
      norm_num [RenderingCutOffAltitudeMinimimum]
    · intro h4 hlt hgt hne0
      rw [if_pos h4, if_pos hlt, if_neg ?hor]
      case hor =>
        rintro (h | h)
        · exact absurd h (not_le.mpr hgt)
        · exact hne0 h

/-- C2 witness: a destination 5 nm away yields the cut-off maximum 400. -/
theorem c2_witness : calculateAbsoluteCutOffAltitude true 0 1000 5 = 400 :=
  ((c2_amended true 0 1000 5).2.2 rfl (by norm_num [InvalidElevation])).1 (by norm_num)

/-- C3 counterexample: at exactly 4.0 nm with the aircraft 100 ft above the
destination (a glide well below 3 degrees), the code enters the interpolation
branch and returns 200, not the claimed 400. -/
theorem c3_counterexample :
    calculateAbsoluteCutOffAltitude true 0 100 4 = 200 ∧ (200 : ℚ) ≠ 400 := by
  refine ⟨?_, by norm_num⟩
  have hg : glideRadian 0 100 4 =
      Real.arctan ((((100 : ℚ) - 0 : ℚ) : ℝ) / (((4 : ℚ) * FeetPerNauticalMile : ℚ) : ℝ)) := by
    unfold glideRadian
    rw [if_pos (by norm_num)]
  have hxval : (((100 : ℚ) - 0 : ℚ) : ℝ) / (((4 : ℚ) * FeetPerNauticalMile : ℚ) : ℝ)
      = 100 / 24304.48 := by
    rw [show ((4 : ℚ) * FeetPerNauticalMile : ℚ) = 24304.48 by
      norm_num [FeetPerNauticalMile]]
    push_cast
    norm_num
  have hlt : glideRadian 0 100 4 < (0.0523599 : ℝ) := by
    rw [hg, hxval]
    exact lt_of_le_of_lt (arctan_le_self_of_nonneg (by norm_num)) (by norm_num)
  have hne0 : glideRadian 0 100 4 ≠ 0 := by
    rw [hg, hxval, Ne, Real.arctan_eq_zero_iff]
    norm_num
  unfold calculateAbsoluteCutOffAltitude
  rw [if_neg (by simp), if_pos (by norm_num [InvalidElevation]),
    if_pos (by norm_num [RenderingMaxAirportDistance]),
    if_pos hlt, if_neg ?hor]
  case hor =>
    rintro (h | h)
    · norm_num at h
    · exact hne0 h
  exact cutOffInterpolationAtFour

/-- C3 amended: at exactly 4.0 nm with glide below 3 degrees the result is 200
(not 400); at exactly 1.0 nm with glide below 3 degrees it is 200; and a glide
of exactly 3 degrees (within 4 nm) yields 400. -/
theorem c3_amended (destinationElevation altitude : ℚ)
    (hne : destinationElevation ≠ InvalidElevation) :
    (glideRadian destinationElevation altitude 4 < 0.0523599 →
      calculateAbsoluteCutOffAltitude true destinationElevation altitude 4 = 200) ∧
    (glideRadian destinationElevation altitude 1 < 0.0523599 →
      calculateAbsoluteCutOffAltitude true destinationElevation altitude 1 = 200) ∧
    (∀ distance : ℚ, distance ≤ 4 →
      glideRadian destinationElevation altitude distance = 0.0523599 →
      calculateAbsoluteCutOffAltitude true destinationElevation altitude distance = 400) := by
  have h4eq : RenderingMaxAirportDistance = (4 : ℚ) := by
    norm_num [RenderingMaxAirportDistance]
  have hat4 : glideRadian destinationElevation altitude 4 < 0.0523599 →
      calculateAbsoluteCutOffAltitude true destinationElevation altitude 4 = 200 := by
    intro hlt
    unfold calculateAbsoluteCutOffAltitude
    rw [if_neg (by simp), if_pos hne, h4eq, if_pos (le_refl _), if_pos hlt]
    by_cases h0 : glideRadian destinationElevation altitude 4 = 0
    · rw [if_pos (Or.inr h0)]
      norm_num [RenderingCutOffAltitudeMinimimum]
    · rw [if_neg ?hor]
      case hor =>
        rintro (h | h)
        · norm_num at h
        · exact h0 h
      exact cutOffInterpolationAtFour
  refine ⟨hat4, ?_, ?_⟩
  · intro hlt
    unfold calculateAbsoluteCutOffAltitude
    rw [if_neg (by simp), if_pos hne, h4eq, if_pos (by norm_num), if_pos hlt,
      if_pos (Or.inl (le_refl _))]
    norm_num [RenderingCutOffAltitudeMinimimum]
  · intro distance hd4 heq
    unfold calculateAbsoluteCutOffAltitude
    rw [if_neg (by simp), if_pos hne, h4eq, if_pos hd4,
      if_neg (by rw [heq]; exact lt_irrefl _)]
    norm_num [RenderingCutOffAltitudeMaximum]

/-- C3 witness: a level aircraft at exactly 1 nm (glide 0) gets the minimum
cut-off 200. -/
theorem c3_witness : calculateAbsoluteCutOffAltitude true 0 0 1 = 200 := by
  refine (c3_amended 0 0 (by norm_num [InvalidElevation])).2.1 ?_
  have hg : glideRadian 0 0 1 = 0 := by
    unfold glideRadian
    rw [if_neg (by norm_num)]
  rw [hg]
  norm_num

/-- C7: `metresPerPixel = round((range * 1852) / mapHeight)`, doubled in arc
mode; and in arc mode every output pixel whose distance from the bottom-center
origin exceeds `ndHeight` is assigned the `INVALID` elevation (32767). -/
theorem c7_local_map_projection (range mapHeight : ℚ)
    (latitude longitude heading currentWorldGridX currentWorldGridY : ℝ)
    (worldMap : ℤ → ℤ → ℝ)
    (worldMapWidth worldMapHeight swLat swLong neLat neLong ndWidth ndHeight meterPerPixel
      x y : ℝ) :
    (metresPerPixel range mapHeight true = 2 * mathRound (range * 1852 / mapHeight) ∧
      metresPerPixel range mapHeight false = mathRound (range * 1852 / mapHeight)) ∧
    (ndHeight < Real.sqrt ((x - ndWidth / 2) ^ 2 + (ndHeight - y) ^ 2) →
      createLocalElevationMap latitude longitude heading currentWorldGridX currentWorldGridY
        worldMap worldMapWidth worldMapHeight swLat swLong neLat neLong
        ndWidth ndHeight meterPerPixel true x y = ((InvalidElevation : ℚ) : ℝ)) := by
  refine ⟨⟨?_, ?_⟩, ?_⟩
  · unfold metresPerPixel NauticalMilesToMetres
    dsimp only
    rw [if_pos rfl]
    exact mul_comm _ _
  · unfold metresPerPixel NauticalMilesToMetres
    dsimp only
    rw [if_neg (by simp)]
  · intro hdist
    unfold createLocalElevationMap
    dsimp only
    rw [if_pos ⟨rfl, hdist⟩]

/-- C7 witness: pixel (0, 0) of a 756x492 arc-mode display lies outside the
fan and receives `INVALID`; 10 nm over 492 rows gives 76 metres per pixel. -/
theorem c7_witness :
    createLocalElevationMap 0 0 0 0 0 (fun _ _ => 0) 0 0 0 0 0 0 756 492 0 true 0 0
      = ((InvalidElevation : ℚ) : ℝ) ∧
    metresPerPixel 10 492 true = 76 := by
  constructor
  · refine (c7_local_map_projection 10 492 0 0 0 0 0 (fun _ _ => 0)
      0 0 0 0 0 0 756 492 0 0 0).2 ?_
    refine (Real.lt_sqrt (by norm_num)).mpr ?_
    norm_num
  · rw [(c7_local_map_projection 10 492 0 0 0 0 0 (fun _ _ => 0)
      0 0 0 0 0 0 756 492 0 0 0).1.1,
      mathRound_eq ((10 : ℚ) * 1852 / 492) 38 (by norm_num) (by norm_num)]
    norm_num
